import Mathlib

/-!
Verification development for the `pydantic_cryptography.x509.name` module
(models `NameAttributeModel` and `NameModel`) together with the parts of
`pydantic_cryptography.base.types` and `pydantic_cryptography.base.validators`
that they use.  The external primitives (the `cryptography` library's
`ObjectIdentifier`, `NameAttribute`, `Name`, the RFC4514 parser, and the
standard base64 codec) are modelled from the specification's description of
their contract, since their code is not part of this repository.
-/

/-- A list of character groups obtained by splitting at every occurrence of
`sep` (model of Python `str.split(sep)` for a one-character separator). -/
def splitChar (sep : Char) (cs : List Char) : List (List Char) :=
  cs.foldr
    (fun c acc =>
      if c = sep then [] :: acc
      else
        match acc with
        | g :: gs => (c :: g) :: gs
        | [] => [[c]])
    [[]]

/-- One dot-separated component of an OID is valid when it is a non-empty
digit string with no leading zero (except the literal "0"). -/
def validOidArc (cs : List Char) : Bool :=
  !cs.isEmpty && cs.all (fun c => c.isDigit) &&
    (cs.length = 1 || cs.head? ≠ some '0')

namespace x509

/-- Modelled from the spec: the external primitive's OID constructor
(`cryptography.x509.ObjectIdentifier`) accepts a dotted-decimal string that is
non-empty and consists of at least two dot-separated non-negative integers
with no leading zeros except for the literal "0"; it rejects anything else. -/
def validDottedString (s : String) : Bool :=
  let parts := splitChar '.' s.data
  parts.length ≥ 2 && parts.all validOidArc

/-- Model of `cryptography.x509.ObjectIdentifier`: an opaque handle around the
canonical dotted-decimal string. -/
structure ObjectIdentifier where
  dotted_string : String
deriving DecidableEq, Repr

/-- Model of `cryptography.x509.name._ASN1Type` (only the constructors the
repository mentions). -/
inductive ASN1Type where
  | UTF8String
  | BitString
deriving DecidableEq, Repr

/-- The value carried by a native name attribute: a text string or raw bytes
(bytes are modelled as their list of byte values). -/
inductive AttrValue where
  | str (s : String)
  | bytes (b : List Nat)
deriving DecidableEq, Repr

/-- Model of `cryptography.x509.NameAttribute`: an (OID handle, value) pair
with an optional explicit ASN.1 tag type (`none` means the library's default
tag inference). -/
structure NameAttribute where
  oid : ObjectIdentifier
  value : AttrValue
  type : Option ASN1Type
deriving DecidableEq, Repr

/-- Model of `cryptography.x509.Name`: an ordered list of native attributes. -/
structure Name where
  attributes : List NameAttribute
deriving DecidableEq, Repr

end x509

/-- `NameOID.COMMON_NAME` from the external library. -/
def NameOID.COMMON_NAME : x509.ObjectIdentifier := ⟨"2.5.4.3"⟩

/-- `NameOID.COUNTRY_NAME` from the external library. -/
def NameOID.COUNTRY_NAME : x509.ObjectIdentifier := ⟨"2.5.4.6"⟩

/-- `NameOID.LOCALITY_NAME` from the external library. -/
def NameOID.LOCALITY_NAME : x509.ObjectIdentifier := ⟨"2.5.4.7"⟩

/-- `NameOID.STATE_OR_PROVINCE_NAME` from the external library. -/
def NameOID.STATE_OR_PROVINCE_NAME : x509.ObjectIdentifier := ⟨"2.5.4.8"⟩

/-- `NameOID.STREET_ADDRESS` from the external library. -/
def NameOID.STREET_ADDRESS : x509.ObjectIdentifier := ⟨"2.5.4.9"⟩

/-- `NameOID.ORGANIZATION_NAME` from the external library. -/
def NameOID.ORGANIZATION_NAME : x509.ObjectIdentifier := ⟨"2.5.4.10"⟩

/-- `NameOID.ORGANIZATIONAL_UNIT_NAME` from the external library. -/
def NameOID.ORGANIZATIONAL_UNIT_NAME : x509.ObjectIdentifier := ⟨"2.5.4.11"⟩

/-- `NameOID.X500_UNIQUE_IDENTIFIER` from the external library. -/
def NameOID.X500_UNIQUE_IDENTIFIER : x509.ObjectIdentifier := ⟨"2.5.4.45"⟩

/-- `NameOID.DOMAIN_COMPONENT` from the external library. -/
def NameOID.DOMAIN_COMPONENT : x509.ObjectIdentifier := ⟨"0.9.2342.19200300.100.1.25"⟩

/-- `NameOID.USER_ID` from the external library. -/
def NameOID.USER_ID : x509.ObjectIdentifier := ⟨"0.9.2342.19200300.100.1.1"⟩

/-- `NameOID.JURISDICTION_COUNTRY_NAME` from the external library. -/
def NameOID.JURISDICTION_COUNTRY_NAME : x509.ObjectIdentifier :=
  ⟨"1.3.6.1.4.1.311.60.2.1.3"⟩

/-- `MULTIPLE_OIDS` from `pydantic_cryptography/x509/name.py`: OIDs that can
occur multiple times in a certificate. -/
def MULTIPLE_OIDS : List x509.ObjectIdentifier :=
  [NameOID.DOMAIN_COMPONENT, NameOID.ORGANIZATIONAL_UNIT_NAME, NameOID.STREET_ADDRESS]

/-- `MULTIPLE_OID_STRINGS` from `pydantic_cryptography/x509/name.py`. -/
def MULTIPLE_OID_STRINGS : List String :=
  MULTIPLE_OIDS.map x509.ObjectIdentifier.dotted_string

/-- The `oid` input field of `NameAttributeModel` accepts either a string or a
native `ObjectIdentifier` handle. -/
inductive OidValue where
  | str (s : String)
  | oid (o : x509.ObjectIdentifier)
deriving DecidableEq, Repr

/-- `oid_to_dotted_string_validator` from
`pydantic_cryptography/base/validators.py`: converts an `ObjectIdentifier` to
its dotted string; any other value passes through. -/
def oid_to_dotted_string_validator : OidValue → String
  | .oid o => o.dotted_string
  | .str s => s

/-- `dotted_string_after_validator` from
`pydantic_cryptography/base/validators.py`: checks that the value is a valid
dotted string by handing it to the external `x509.ObjectIdentifier`
constructor. -/
def dotted_string_after_validator (value : String) : Except String String :=
  if x509.validDottedString value then Except.ok value
  else Except.error (value ++ ": Invalid object identifier")

/-- `NameAttributeModel` from `pydantic_cryptography/x509/name.py`: a
validated (oid, value) pair, with `oid` stored as a dotted string. -/
structure NameAttributeModel where
  oid : String
  value : String
deriving DecidableEq, Repr

/-- The inputs accepted when constructing a `NameAttributeModel`: explicit
(oid, value) fields, or a native `x509.NameAttribute` instance. -/
inductive NameAttributeInput where
  | fields (oid : OidValue) (value : String)
  | native (attr : x509.NameAttribute)
deriving DecidableEq, Repr

/-- Base64 alphabet, in index order. -/
def b64chars : List Char :=
  "ABCDEFGHIJKLMNOPQRSTUVWXYZabcdefghijklmnopqrstuvwxyz0123456789+/".data

/-- Index of a character in the base64 alphabet, `none` if absent. -/
def b64index (c : Char) : Option Nat :=
  b64chars.findIdx? (fun d => d = c)

/-- Encode a list of bytes into base64 characters, three bytes to four
characters, padding with "=". -/
def b64encodeAux : List Nat → List Char
  | x :: y :: z :: rest =>
    b64chars.getD (x / 4) 'A' ::
    b64chars.getD ((x % 4) * 16 + y / 16) 'A' ::
    b64chars.getD ((y % 16) * 4 + z / 64) 'A' ::
    b64chars.getD (z % 64) 'A' :: b64encodeAux rest
  | [x, y] =>
    [b64chars.getD (x / 4) 'A', b64chars.getD ((x % 4) * 16 + y / 16) 'A',
     b64chars.getD ((y % 16) * 4) 'A', '=']
  | [x] =>
    [b64chars.getD (x / 4) 'A', b64chars.getD ((x % 4) * 16) 'A', '=', '=']
  | [] => []

/-- Modelled from the spec: the standard library primitive `base64.b64encode`
used by the repository, encoding raw bytes as base64 text. -/
def b64encode (bs : List Nat) : String :=
  String.mk (b64encodeAux bs)

/-- Decode a list of base64 sextets into bytes; a trailing group of two or
three sextets yields one or two bytes, discarding the unused low bits. -/
def b64decodeAux : List Nat → List Nat
  | a :: b :: c :: d :: rest =>
    (a * 4 + b / 16) :: ((b % 16) * 16 + c / 4) :: ((c % 4) * 64 + d) ::
      b64decodeAux rest
  | [a, b, c] => [a * 4 + b / 16, (b % 16) * 16 + c / 4]
  | [a, b] => [a * 4 + b / 16]
  | _ => []

/-- Modelled from the spec: the standard library primitive `base64.b64decode`
used by the repository.  Characters outside the base64 alphabet (other than
the padding character "=") are discarded; the remaining text must consist of
four-character groups with at most two trailing padding characters, otherwise
decoding fails. -/
def b64decode (s : String) : Except String (List Nat) :=
  let cs := s.data.filter (fun c => (b64index c).isSome || c = '=')
  if cs.length % 4 ≠ 0 then Except.error "Incorrect padding"
  else
    let dataChars := cs.takeWhile (fun c => c ≠ '=')
    let padChars := cs.drop dataChars.length
    if ¬ padChars.all (fun c => c = '=') then
      Except.error "Discontinuous padding is not allowed"
    else if padChars.length > 2 then
      Except.error "Excess padding"
    else Except.ok (b64decodeAux (dataChars.filterMap b64index))

/-- `NameAttributeModel.parse_cryptography` from
`pydantic_cryptography/x509/name.py` (mode="before" validator): a native
attribute whose OID is the X.500 unique identifier carries raw bytes, which
are base64 encoded into the `value` field; everything else passes through. -/
def NameAttributeModel.parse_cryptography (data : NameAttributeInput) : NameAttributeInput :=
  match data with
  | .native attr =>
    if attr.oid = NameOID.X500_UNIQUE_IDENTIFIER then
      match attr.value with
      | .bytes b => .fields (.str attr.oid.dotted_string) (b64encode b)
      | .str _ => .native attr
    else .native attr
  | d => d

/-- Field extraction performed by pydantic: explicit fields are used as given;
a native attribute is read through `from_attributes=True`, its `value` must be
a string for the `value: str` field to validate. -/
def extractAttributeFields : NameAttributeInput → Except String (OidValue × String)
  | .fields o v => Except.ok (o, v)
  | .native attr =>
    match attr.value with
    | .str s => Except.ok (OidValue.oid attr.oid, s)
    | .bytes _ => Except.error "Input should be a valid string"

/-- `NameAttributeModel.validate_name_attribute` from
`pydantic_cryptography/x509/name.py` (mode="after" validator): country-code
OIDs must have exactly two characters, and the common name must have between
1 and 64 characters. -/
def NameAttributeModel.validate_name_attribute (m : NameAttributeModel) :
    Except String NameAttributeModel :=
  if (m.oid = NameOID.COUNTRY_NAME.dotted_string ∨
      m.oid = NameOID.JURISDICTION_COUNTRY_NAME.dotted_string) ∧ m.value.length ≠ 2 then
    Except.error (m.value ++ ": Must have exactly two characters")
  else if m.oid = NameOID.COMMON_NAME.dotted_string ∧
      ¬(1 ≤ m.value.length ∧ m.value.length ≤ 64) then
    Except.error (NameOID.COMMON_NAME.dotted_string ++
      " length must be >= 1 and <= 64, but it was " ++ toString m.value.length)
  else Except.ok m

/-- The full construction pipeline of `NameAttributeModel`: the
mode="before" validator, pydantic field extraction, the field validators of
`ObjectIdentifierType` (`pydantic_cryptography/base/types.py`), and the
mode="after" validator. -/
def NameAttributeModel.validate (data : NameAttributeInput) :
    Except String NameAttributeModel :=
  match extractAttributeFields (NameAttributeModel.parse_cryptography data) with
  | .error e => .error e
  | .ok (oidIn, v) =>
    match dotted_string_after_validator (oid_to_dotted_string_validator oidIn) with
    | .error e => .error e
    | .ok oidStr =>
      NameAttributeModel.validate_name_attribute { oid := oidStr, value := v }

/-- `NameAttributeModel.cryptography` from
`pydantic_cryptography/x509/name.py`: rebuilds the native OID handle; for the
X.500 unique identifier the value is base64 decoded and the attribute carries
an explicit bit-string tag, otherwise the plain string value is used. -/
def NameAttributeModel.cryptography (m : NameAttributeModel) :
    Except String x509.NameAttribute :=
  if x509.validDottedString m.oid then
    let oid : x509.ObjectIdentifier := ⟨m.oid⟩
    if oid = NameOID.X500_UNIQUE_IDENTIFIER then
      match b64decode m.value with
      | .error e => .error e
      | .ok value => .ok ⟨oid, .bytes value, some .BitString⟩
    else .ok ⟨oid, .str m.value, none⟩
  else .error (m.oid ++ ": Invalid object identifier")

/-- RFC4514 registry of short attribute names, as supported by the external
primitive's parser. -/
def RFC4514_NAME_TO_OID : List (String × x509.ObjectIdentifier) :=
  [("CN", NameOID.COMMON_NAME), ("L", NameOID.LOCALITY_NAME),
   ("ST", NameOID.STATE_OR_PROVINCE_NAME), ("O", NameOID.ORGANIZATION_NAME),
   ("OU", NameOID.ORGANIZATIONAL_UNIT_NAME), ("C", NameOID.COUNTRY_NAME),
   ("STREET", NameOID.STREET_ADDRESS), ("DC", NameOID.DOMAIN_COMPONENT),
   ("UID", NameOID.USER_ID)]

/-- Parse one `key=value` component of an RFC4514 string into a native
attribute; the key is a registered short name or a dotted-decimal OID. -/
def parseRfc4514Component (cs : List Char) : Except String x509.NameAttribute :=
  let keyChars := cs.takeWhile (fun c => c ≠ '=')
  match cs.drop keyChars.length with
  | '=' :: valueChars =>
    let key := String.mk keyChars
    if x509.validDottedString key then
      Except.ok ⟨⟨key⟩, .str (String.mk valueChars), none⟩
    else
      match (RFC4514_NAME_TO_OID.find? (fun p => p.1 = key)) with
      | some p => Except.ok ⟨p.2, .str (String.mk valueChars), none⟩
      | none => Except.error (key ++ ": Unknown attribute type")
  | _ => Except.error (String.mk cs ++ ": Invalid RFC4514 component")

/-- Modelled from the spec: the external primitive's RFC4514 parser
(`x509.Name.from_rfc4514_string`), restricted to the unescaped single-valued
components exercised here.  Per RFC4514 the string lists the components in
reverse order of the stored attribute sequence, so the parsed list is
reversed — the ordering the repository's own test suite pins down. -/
def x509.Name.from_rfc4514_string (s : String) : Except String x509.Name :=
  match (splitChar ',' s.data).mapM parseRfc4514Component with
  | .error e => .error e
  | .ok attrs => .ok ⟨attrs.reverse⟩

/-- `NameModel` from `pydantic_cryptography/x509/name.py`: a root model
holding an ordered list of `NameAttributeModel`. -/
structure NameModel where
  root : List NameAttributeModel
deriving DecidableEq, Repr

/-- The inputs accepted when constructing a `NameModel`: an RFC4514 string, a
native `x509.Name`, or a list of attribute inputs. -/
inductive NameInput where
  | str (s : String)
  | name (n : x509.Name)
  | list (attrs : List NameAttributeInput)
deriving DecidableEq, Repr

/-- `NameModel.parse_cryptography` from `pydantic_cryptography/x509/name.py`
(mode="before" validator): a string is parsed with the external RFC4514
parser; a native `Name` is decomposed into its attribute list; a list passes
through. -/
def NameModel.parse_cryptography (data : NameInput) :
    Except String (List NameAttributeInput) :=
  match data with
  | .str s =>
    match x509.Name.from_rfc4514_string s with
    | .error e => .error e
    | .ok n => .ok (n.attributes.map NameAttributeInput.native)
  | .name n => .ok (n.attributes.map NameAttributeInput.native)
  | .list attrs => .ok attrs

/-- Validation of the `root: list[NameAttributeModel]` field: each element is
validated in order, the first failure aborting construction. -/
def validateAttributeList : List NameAttributeInput →
    Except String (List NameAttributeModel)
  | [] => .ok []
  | a :: rest =>
    match NameAttributeModel.validate a with
    | .error e => .error e
    | .ok m =>
      match validateAttributeList rest with
      | .error e => .error e
      | .ok ms => .ok (m :: ms)

/-- The loop body of `NameModel.validate_duplicates`: walk the attribute list
keeping the set of OIDs seen so far. -/
def duplicatesScan (seen : List String) : List NameAttributeModel → Except String Unit
  | [] => .ok ()
  | attr :: rest =>
    if attr.oid ∈ seen ∧ attr.oid ∉ MULTIPLE_OID_STRINGS then
      .error ("Name attribute of type " ++ attr.oid ++ " must not occur more then once.")
    else duplicatesScan (attr.oid :: seen) rest

/-- `NameModel.validate_duplicates` from `pydantic_cryptography/x509/name.py`
(mode="after" validator). -/
def NameModel.validate_duplicates (m : NameModel) : Except String NameModel :=
  match duplicatesScan [] m.root with
  | .error e => .error e
  | .ok _ => .ok m

/-- The full construction pipeline of `NameModel`: the mode="before"
validator, element-wise validation of the root list, and the mode="after"
duplicate check. -/
def NameModel.validate (data : NameInput) : Except String NameModel :=
  match NameModel.parse_cryptography data with
  | .error e => .error e
  | .ok items =>
    match validateAttributeList items with
    | .error e => .error e
    | .ok root => NameModel.validate_duplicates ⟨root⟩

/-- `NameModel.__len__`. -/
def NameModel.len (m : NameModel) : Nat :=
  m.root.length

/-- `NameModel.__getitem__` with an integer index (out-of-range access, which
raises `IndexError` in Python, is `none`). -/
def NameModel.getItem (m : NameModel) (i : Nat) : Option NameAttributeModel :=
  m.root.get? i

/-- `NameModel.__getitem__` with a slice `[start:stop]` (non-negative bounds,
step one). -/
def NameModel.getSlice (m : NameModel) (start stop : Nat) : List NameAttributeModel :=
  (m.root.take stop).drop start

/-- Conversion of each attribute by `NameModel.cryptography`. -/
def attributeListCryptography : List NameAttributeModel →
    Except String (List x509.NameAttribute)
  | [] => .ok []
  | a :: rest =>
    match NameAttributeModel.cryptography a with
    | .error e => .error e
    | .ok attr =>
      match attributeListCryptography rest with
      | .error e => .error e
      | .ok attrs => .ok (attr :: attrs)

/-- `NameModel.cryptography` from `pydantic_cryptography/x509/name.py`:
the native `Name` built from each attribute's native conversion, in order. -/
def NameModel.cryptography (m : NameModel) : Except String x509.Name :=
  match attributeListCryptography m.root with
  | .error e => .error e
  | .ok attrs => .ok ⟨attrs⟩

/-- Serialization of a `NameAttributeModel` to its structured form: the
(oid, value) pair of strings. -/
def NameAttributeModel.serialize (m : NameAttributeModel) : String × String :=
  (m.oid, m.value)

/-- Serialization of a `NameModel` to its canonical structured text form: the
ordered list of serialized attributes. -/
def NameModel.serialize (m : NameModel) : List (String × String) :=
  m.root.map NameAttributeModel.serialize

/-- Parsing the canonical structured form back into a `NameModel`: each
(oid, value) pair becomes an explicit-fields attribute input and the whole
construction pipeline runs again. -/
def NameModel.parseSerialized (l : List (String × String)) : Except String NameModel :=
  NameModel.validate (.list (l.map (fun p => NameAttributeInput.fields (.str p.1) p.2)))

/-- For explicit-fields input with a string oid, the pipeline reduces to the
oid grammar check followed by the after-validator. -/
theorem validate_fields_eq (o v : String) :
    NameAttributeModel.validate (.fields (.str o) v) =
      if x509.validDottedString o then
        NameAttributeModel.validate_name_attribute ⟨o, v⟩
      else Except.error (o ++ ": Invalid object identifier") := by
  unfold NameAttributeModel.validate NameAttributeModel.parse_cryptography
    extractAttributeFields oid_to_dotted_string_validator dotted_string_after_validator
  by_cases h : x509.validDottedString o
  · simp [h]
  · simp [h]

/-- An `ObjectIdentifier` handle given as the oid field behaves exactly like
its dotted string. -/
theorem validate_fields_oid_eq (o : x509.ObjectIdentifier) (v : String) :
    NameAttributeModel.validate (.fields (.oid o) v) =
      NameAttributeModel.validate (.fields (.str o.dotted_string) v) := rfl

/-- The after-validator only ever returns its input. -/
theorem validate_name_attribute_ok_eq {m m' : NameAttributeModel}
    (h : NameAttributeModel.validate_name_attribute m = .ok m') : m' = m := by
  unfold NameAttributeModel.validate_name_attribute at h
  split at h
  · cases h
  · split at h
    · cases h
    · cases h; rfl

/-- Inversion of a successful attribute construction: the stored oid passes
the external grammar check and the after-validator accepts the model. -/
theorem validate_ok_inv {d : NameAttributeInput} {m : NameAttributeModel}
    (h : NameAttributeModel.validate d = .ok m) :
    x509.validDottedString m.oid = true ∧
    NameAttributeModel.validate_name_attribute m = .ok m := by
  unfold NameAttributeModel.validate at h
  split at h
  · cases h
  · rename_i p hp
    split at h
    · cases h
    · rename_i oidStr hd
      have hm := validate_name_attribute_ok_eq h
      subst hm
      unfold dotted_string_after_validator at hd
      split at hd
      · rename_i hvalid
        cases hd
        exact ⟨hvalid, h⟩
      · cases hd

/-- Inversion of a successful construction from an explicit string oid. -/
theorem validate_fields_str_ok_shape {o v : String} {m : NameAttributeModel}
    (h : NameAttributeModel.validate (.fields (.str o) v) = .ok m) :
    m = ⟨o, v⟩ := by
  rw [validate_fields_eq] at h
  split at h
  · exact validate_name_attribute_ok_eq h
  · cases h

/-- Inversion of a successful explicit-fields construction: the model stores
the normalized oid and the given value. -/
theorem validate_fields_ok_shape {oin : OidValue} {v : String} {m : NameAttributeModel}
    (h : NameAttributeModel.validate (.fields oin v) = .ok m) :
    m = ⟨oid_to_dotted_string_validator oin, v⟩ := by
  cases oin with
  | str s => exact validate_fields_str_ok_shape h
  | oid o =>
    rw [validate_fields_oid_eq] at h
    exact validate_fields_str_ok_shape h

/-- A successfully constructed attribute re-validates to itself from its
stored (oid, value) fields. -/
theorem validate_refold {d : NameAttributeInput} {m : NameAttributeModel}
    (h : NameAttributeModel.validate d = .ok m) :
    NameAttributeModel.validate (.fields (.str m.oid) m.value) = .ok m := by
  obtain ⟨hval, hafter⟩ := validate_ok_inv h
  rw [validate_fields_eq, if_pos hval]
  exact hafter

/-- C3: constructing an AttributeModel whose canonical OID is the
country-name OID (2.5.4.6) or the jurisdiction-country-name OID
(1.3.6.1.4.1.311.60.2.1.3) fails with the InvalidLength message
"<value>: Must have exactly two characters" if and only if the value's
length is not exactly 2, and succeeds otherwise. -/
theorem country_code_length_check (oidS v : String)
    (h : oidS = NameOID.COUNTRY_NAME.dotted_string ∨
         oidS = NameOID.JURISDICTION_COUNTRY_NAME.dotted_string) :
    (NameAttributeModel.validate (.fields (.str oidS) v) =
        .error (v ++ ": Must have exactly two characters") ↔ v.length ≠ 2)
    ∧ (v.length = 2 →
        NameAttributeModel.validate (.fields (.str oidS) v) = .ok ⟨oidS, v⟩) := by
  have hval : x509.validDottedString oidS = true := by
    rcases h with h | h <;> subst h <;> decide
  rw [validate_fields_eq, if_pos hval]
  unfold NameAttributeModel.validate_name_attribute
  by_cases hlen : v.length = 2
  · rw [if_neg (by simp [hlen]), if_neg]
    · constructor
      · constructor
        · intro he; cases he
        · intro hne; exact absurd hlen hne
      · intro _; rfl
    · rintro ⟨hcn, -⟩
      rcases h with h | h <;> subst h
      · exact (by decide : ("2.5.4.6" : String) ≠ "2.5.4.3") hcn
      · exact (by decide : ("1.3.6.1.4.1.311.60.2.1.3" : String) ≠ "2.5.4.3") hcn
  · rw [if_pos ⟨h, hlen⟩]
    constructor
    · simp [hlen]
    · intro h2; exact absurd h2 hlen

/-- Witness for C3 at oid "2.5.4.6" and value "ATX". -/
theorem country_code_length_check_witness :
    NameAttributeModel.validate (.fields (.str "2.5.4.6") "ATX") =
      .error "ATX: Must have exactly two characters" := by
  have h := (country_code_length_check "2.5.4.6" "ATX" (Or.inl rfl)).1
  exact h.mpr (by decide)

/-- C4: constructing an AttributeModel whose canonical OID is the common-name
OID (2.5.4.3) fails with the InvalidLength message
"<oid> length must be >= 1 and <= 64, but it was <len>" if and only if the
value's length lies outside [1, 64], and succeeds otherwise. -/
theorem common_name_length_check (v : String) :
    (NameAttributeModel.validate (.fields (.str NameOID.COMMON_NAME.dotted_string) v) =
        .error (NameOID.COMMON_NAME.dotted_string ++
          " length must be >= 1 and <= 64, but it was " ++ toString v.length) ↔
      ¬(1 ≤ v.length ∧ v.length ≤ 64))
    ∧ (1 ≤ v.length ∧ v.length ≤ 64 →
        NameAttributeModel.validate (.fields (.str NameOID.COMMON_NAME.dotted_string) v) =
          .ok ⟨NameOID.COMMON_NAME.dotted_string, v⟩) := by
  rw [validate_fields_eq, if_pos (by decide)]
  unfold NameAttributeModel.validate_name_attribute
  rw [if_neg (by
    rintro ⟨(hc | hc), -⟩
    · exact (by decide : ("2.5.4.3" : String) ≠ "2.5.4.6") hc
    · exact (by decide : ("2.5.4.3" : String) ≠ "1.3.6.1.4.1.311.60.2.1.3") hc)]
  by_cases hlen : 1 ≤ v.length ∧ v.length ≤ 64
  · rw [if_neg (by simp [hlen])]
    constructor
    · constructor
      · intro he; cases he
      · intro hne; exact absurd hlen hne
    · intro _; rfl
  · rw [if_pos ⟨rfl, hlen⟩]
    constructor
    · simp [hlen]
    · intro h2; exact absurd h2 hlen

/-- Witness for C4 at the empty value, which has length 0. -/
theorem common_name_length_check_witness :
    NameAttributeModel.validate (.fields (.str "2.5.4.3") "") =
      .error "2.5.4.3 length must be >= 1 and <= 64, but it was 0" := by
  have h := (common_name_length_check "").1
  exact h.mpr (by decide)

/-- C7: constructing an AttributeModel with the X.500 unique-identifier OID
(2.5.4.45) from explicit fields never fails for base64 reasons — every value
string is accepted — and the conversion to native form is exactly the result
of base64 decoding: the InvalidBase64 failure surfaces there and only
there, a successful decode yielding the bytes with an explicit bit-string
tag. -/
theorem uid_base64_checked_only_at_conversion (v : String) :
    NameAttributeModel.validate
        (.fields (.str NameOID.X500_UNIQUE_IDENTIFIER.dotted_string) v) =
      .ok ⟨NameOID.X500_UNIQUE_IDENTIFIER.dotted_string, v⟩
    ∧ NameAttributeModel.cryptography ⟨NameOID.X500_UNIQUE_IDENTIFIER.dotted_string, v⟩ =
        (match b64decode v with
         | .error e => .error e
         | .ok bs => .ok ⟨NameOID.X500_UNIQUE_IDENTIFIER, .bytes bs, some .BitString⟩) := by
  constructor
  · rw [validate_fields_eq, if_pos (by decide)]
    unfold NameAttributeModel.validate_name_attribute
    rw [if_neg (by
      rintro ⟨(hc | hc), -⟩
      · exact (by decide : ("2.5.4.45" : String) ≠ "2.5.4.6") hc
      · exact (by decide : ("2.5.4.45" : String) ≠ "1.3.6.1.4.1.311.60.2.1.3") hc)]
    rw [if_neg (by
      rintro ⟨hc, -⟩
      exact (by decide : ("2.5.4.45" : String) ≠ "2.5.4.3") hc)]
  · unfold NameAttributeModel.cryptography
    dsimp only
    rw [if_pos (by decide), if_pos rfl]

/-- C8: the empty attribute list is accepted (the duplicate scan passes
vacuously), has length 0, and converts to the empty native Name. -/
theorem empty_name_model_ok :
    NameModel.validate (.list []) = .ok ⟨[]⟩
    ∧ NameModel.len ⟨[]⟩ = 0
    ∧ NameModel.cryptography ⟨[]⟩ = .ok ⟨[]⟩ :=
  ⟨rfl, rfl, rfl⟩

/-- Constructing a NameModel from "CN=example.com,OU=X,O=Y,ST=Z,C=AT" stores
the five attributes in the reverse of the order declared in the RFC4514
string: the country attribute comes first and the common name last, so the
first stored attribute is not the common name. -/
theorem rfc4514_order_counterexample :
    NameModel.validate (.str "CN=example.com,OU=X,O=Y,ST=Z,C=AT") =
      .ok ⟨[⟨"2.5.4.6", "AT"⟩, ⟨"2.5.4.8", "Z"⟩, ⟨"2.5.4.10", "Y"⟩,
            ⟨"2.5.4.11", "X"⟩, ⟨"2.5.4.3", "example.com"⟩]⟩
    ∧ NameModel.getItem
        ⟨[⟨"2.5.4.6", "AT"⟩, ⟨"2.5.4.8", "Z"⟩, ⟨"2.5.4.10", "Y"⟩,
          ⟨"2.5.4.11", "X"⟩, ⟨"2.5.4.3", "example.com"⟩]⟩ 0 ≠
        some ⟨"2.5.4.3", "example.com"⟩ :=
  ⟨rfl, by decide⟩

/-- C2 (amended): parsing "CN=example.com,OU=X,O=Y,ST=Z,C=AT" yields 5
attributes stored in the reverse of the RFC4514-declared order (C first, CN
last), and indexing and slicing return the corresponding sub-sequences of
that stored order. -/
theorem rfc4514_parse_reversed_order :
    NameModel.validate (.str "CN=example.com,OU=X,O=Y,ST=Z,C=AT") =
      .ok ⟨[⟨"2.5.4.6", "AT"⟩, ⟨"2.5.4.8", "Z"⟩, ⟨"2.5.4.10", "Y"⟩,
            ⟨"2.5.4.11", "X"⟩, ⟨"2.5.4.3", "example.com"⟩]⟩
    ∧ [⟨"2.5.4.6", "AT"⟩, ⟨"2.5.4.8", "Z"⟩, ⟨"2.5.4.10", "Y"⟩,
       ⟨"2.5.4.11", "X"⟩, ⟨"2.5.4.3", "example.com"⟩] =
      ([(⟨"2.5.4.3", "example.com"⟩ : NameAttributeModel), ⟨"2.5.4.11", "X"⟩,
        ⟨"2.5.4.10", "Y"⟩, ⟨"2.5.4.8", "Z"⟩, ⟨"2.5.4.6", "AT"⟩]).reverse
    ∧ NameModel.len
        ⟨[⟨"2.5.4.6", "AT"⟩, ⟨"2.5.4.8", "Z"⟩, ⟨"2.5.4.10", "Y"⟩,
          ⟨"2.5.4.11", "X"⟩, ⟨"2.5.4.3", "example.com"⟩]⟩ = 5
    ∧ NameModel.getItem
        ⟨[⟨"2.5.4.6", "AT"⟩, ⟨"2.5.4.8", "Z"⟩, ⟨"2.5.4.10", "Y"⟩,
          ⟨"2.5.4.11", "X"⟩, ⟨"2.5.4.3", "example.com"⟩]⟩ 0 =
        some ⟨"2.5.4.6", "AT"⟩
    ∧ NameModel.getItem
        ⟨[⟨"2.5.4.6", "AT"⟩, ⟨"2.5.4.8", "Z"⟩, ⟨"2.5.4.10", "Y"⟩,
          ⟨"2.5.4.11", "X"⟩, ⟨"2.5.4.3", "example.com"⟩]⟩ 4 =
        some ⟨"2.5.4.3", "example.com"⟩
    ∧ NameModel.getSlice
        ⟨[⟨"2.5.4.6", "AT"⟩, ⟨"2.5.4.8", "Z"⟩, ⟨"2.5.4.10", "Y"⟩,
          ⟨"2.5.4.11", "X"⟩, ⟨"2.5.4.3", "example.com"⟩]⟩ 4 5 =
        [⟨"2.5.4.3", "example.com"⟩]
    ∧ NameModel.getSlice
        ⟨[⟨"2.5.4.6", "AT"⟩, ⟨"2.5.4.8", "Z"⟩, ⟨"2.5.4.10", "Y"⟩,
          ⟨"2.5.4.11", "X"⟩, ⟨"2.5.4.3", "example.com"⟩]⟩ 0 2 =
        [⟨"2.5.4.6", "AT"⟩, ⟨"2.5.4.8", "Z"⟩] :=
  ⟨rfl, rfl, rfl, rfl, rfl, rfl, rfl⟩

/-- The scan succeeds when no attribute, restricted to OIDs outside the
repeat-allow-list, repeats an OID from the seen set or from the prefix of
attributes before it. -/
theorem duplicatesScan_ok (attrs : List NameAttributeModel) (seen : List String)
    (h : ∀ i a, attrs.get? i = some a → a.oid ∉ MULTIPLE_OID_STRINGS →
      a.oid ∉ seen ∧ a.oid ∉ (attrs.take i).map NameAttributeModel.oid) :
    duplicatesScan seen attrs = .ok () := by
  induction attrs generalizing seen with
  | nil => rfl
  | cons a rest ih =>
    unfold duplicatesScan
    rw [if_neg (by
      rintro ⟨hin, hnotM⟩
      exact (h 0 a rfl hnotM).1 hin)]
    apply ih
    intro i b hb hbM
    have hstep := h (i + 1) b (by simpa using hb) hbM
    rw [List.take_succ_cons, List.map_cons, List.mem_cons] at hstep
    push_neg at hstep
    exact ⟨by
      rw [List.mem_cons]
      rintro (he | hs)
      · exact hstep.2.1 he
      · exact hstep.1 hs, hstep.2.2⟩

/-- The scan fails with the message for attribute `i` when that attribute
repeats an OID (from the seen set or from its prefix), its OID is not in the
repeat-allow-list, and no earlier attribute does the same. -/
theorem duplicatesScan_error (i : Nat) :
    ∀ (attrs : List NameAttributeModel) (seen : List String) (a : NameAttributeModel),
    attrs.get? i = some a →
    a.oid ∉ MULTIPLE_OID_STRINGS →
    (a.oid ∈ seen ∨ a.oid ∈ (attrs.take i).map NameAttributeModel.oid) →
    (∀ j b, j < i → attrs.get? j = some b → b.oid ∉ MULTIPLE_OID_STRINGS →
      b.oid ∉ seen ∧ b.oid ∉ (attrs.take j).map NameAttributeModel.oid) →
    duplicatesScan seen attrs =
      .error ("Name attribute of type " ++ a.oid ++ " must not occur more then once.") := by
  induction i with
  | zero =>
    intro attrs seen a ha hnM hmem _
    cases attrs with
    | nil => cases ha
    | cons b rest =>
      have hb : b = a := by simpa using ha
      subst hb
      have hin : b.oid ∈ seen := by
        rcases hmem with hs | hp
        · exact hs
        · simp at hp
      unfold duplicatesScan
      rw [if_pos ⟨hin, hnM⟩]
  | succ i ih =>
    intro attrs seen a ha hnM hmem hmin
    cases attrs with
    | nil => cases ha
    | cons b rest =>
      unfold duplicatesScan
      rw [if_neg (by
        rintro ⟨hin, hnotM⟩
        exact (hmin 0 b (Nat.succ_pos i) rfl hnotM).1 hin)]
      apply ih rest (b.oid :: seen) a (by simpa using ha) hnM
      · rw [List.take_succ_cons, List.map_cons, List.mem_cons] at hmem
        rw [List.mem_cons]
        rcases hmem with hs | he | hp
        · exact Or.inl (Or.inr hs)
        · exact Or.inl (Or.inl he)
        · exact Or.inr hp
      · intro j c hj hc hcM
        have hstep := hmin (j + 1) c (by omega) (by simpa using hc) hcM
        rw [List.take_succ_cons, List.map_cons, List.mem_cons] at hstep
        push_neg at hstep
        exact ⟨by
          rw [List.mem_cons]
          rintro (he | hs)
          · exact hstep.2.1 he
          · exact hstep.1 hs, hstep.2.2⟩

/-- C1: constructing a NameModel runs a single left-to-right scan over the
attributes maintaining the set of OIDs seen so far; it fails with the message
"Name attribute of type <oid> must not occur more then once." at the first
attribute whose OID was already seen and is not in the repeat-allow-list
(domain-component, organizational-unit-name, street-address), and the
duplicate check succeeds otherwise — only the first violation is ever
reported. -/
theorem validate_duplicates_first_violation (root : List NameAttributeModel) :
    ((∀ i a, root.get? i = some a → a.oid ∉ MULTIPLE_OID_STRINGS →
        a.oid ∉ (root.take i).map NameAttributeModel.oid) →
      NameModel.validate_duplicates ⟨root⟩ = .ok ⟨root⟩)
    ∧ (∀ i a, root.get? i = some a →
        a.oid ∈ (root.take i).map NameAttributeModel.oid →
        a.oid ∉ MULTIPLE_OID_STRINGS →
        (∀ j b, j < i → root.get? j = some b → b.oid ∉ MULTIPLE_OID_STRINGS →
          b.oid ∉ (root.take j).map NameAttributeModel.oid) →
        NameModel.validate_duplicates ⟨root⟩ =
          .error ("Name attribute of type " ++ a.oid ++
            " must not occur more then once.")) := by
  constructor
  · intro h
    unfold NameModel.validate_duplicates
    rw [duplicatesScan_ok root [] (by
      intro i a ha hM
      exact ⟨by simp, h i a ha hM⟩)]
  · intro i a ha hmem hnM hmin
    unfold NameModel.validate_duplicates
    rw [duplicatesScan_error i root [] a ha hnM (Or.inr hmem) (by
      intro j b hj hb hbM
      exact ⟨by simp, hmin j b hj hb hbM⟩)]

/-- Witness for C1: two common-name attributes trigger the duplicate error at
the second attribute. -/
theorem validate_duplicates_first_violation_witness :
    NameModel.validate_duplicates ⟨[⟨"2.5.4.3", "a"⟩, ⟨"2.5.4.3", "b"⟩]⟩ =
      .error "Name attribute of type 2.5.4.3 must not occur more then once." := by
  have h := (validate_duplicates_first_violation
      [⟨"2.5.4.3", "a"⟩, ⟨"2.5.4.3", "b"⟩]).2 1 ⟨"2.5.4.3", "b"⟩
      rfl (by decide) (by decide)
      (by
        intro j b hj hb hbM
        have hj0 : j = 0 := by omega
        subst hj0
        have hb0 : b = ⟨"2.5.4.3", "a"⟩ := by simpa using hb.symm
        subst hb0
        simp)
  exact h

/-- For a plain list input the pipeline is element-wise validation followed
by the duplicate check. -/
theorem nameModel_validate_list (attrs : List NameAttributeInput) :
    NameModel.validate (.list attrs) =
      match validateAttributeList attrs with
      | .error e => .error e
      | .ok root => NameModel.validate_duplicates ⟨root⟩ := rfl

/-- C10: every attribute's oid is normalized to its canonical dotted string
before the duplicate scan runs, so a NameModel given the same OID once as an
opaque ObjectIdentifier handle and once as a dotted string still fails with
the DuplicateAttribute error (when the OID is outside the
repeat-allow-list). -/
theorem oid_normalization_duplicate_detection (o : x509.ObjectIdentifier)
    (v1 v2 : String) (m1 m2 : NameAttributeModel)
    (h1 : NameAttributeModel.validate (.fields (.oid o) v1) = .ok m1)
    (h2 : NameAttributeModel.validate (.fields (.str o.dotted_string) v2) = .ok m2)
    (hno : o.dotted_string ∉ MULTIPLE_OID_STRINGS) :
    m1.oid = o.dotted_string ∧ m2.oid = o.dotted_string ∧
    NameModel.validate
        (.list [.fields (.oid o) v1, .fields (.str o.dotted_string) v2]) =
      .error ("Name attribute of type " ++ o.dotted_string ++
        " must not occur more then once.") := by
  have hs1 := validate_fields_ok_shape h1
  have hs2 := validate_fields_ok_shape h2
  subst hs1
  subst hs2
  refine ⟨rfl, rfl, ?_⟩
  rw [nameModel_validate_list]
  simp only [validateAttributeList, h1, h2]
  simp [NameModel.validate_duplicates, duplicatesScan,
    oid_to_dotted_string_validator, hno]

/-- Witness for C10 at the organization-name OID given in both forms. -/
theorem oid_normalization_duplicate_detection_witness :
    NameModel.validate
        (.list [.fields (.oid ⟨"2.5.4.10"⟩) "a", .fields (.str "2.5.4.10") "b"]) =
      .error "Name attribute of type 2.5.4.10 must not occur more then once." := by
  have h := (oid_normalization_duplicate_detection ⟨"2.5.4.10"⟩ "a" "b"
      ⟨"2.5.4.10", "a"⟩ ⟨"2.5.4.10", "b"⟩ rfl rfl (by decide)).2.2
  exact h

/-- A native attribute with a string value and a non-unique-identifier OID
validates exactly like the explicit fields (dotted string, value). -/
theorem validate_native_str (oid : x509.ObjectIdentifier) (v : String)
    (hne : oid ≠ NameOID.X500_UNIQUE_IDENTIFIER) :
    NameAttributeModel.validate (.native ⟨oid, .str v, none⟩) =
      NameAttributeModel.validate (.fields (.str oid.dotted_string) v) := by
  have hparse : NameAttributeModel.parse_cryptography (.native ⟨oid, .str v, none⟩) =
      .native ⟨oid, .str v, none⟩ := by
    unfold NameAttributeModel.parse_cryptography
    dsimp only
    rw [if_neg hne]
  unfold NameAttributeModel.validate
  rw [hparse]
  rfl

/-- A native unique-identifier attribute with raw bytes validates exactly
like the explicit fields (uid dotted string, base64-encoded bytes). -/
theorem validate_native_uid (bs : List Nat) :
    NameAttributeModel.validate
        (.native ⟨NameOID.X500_UNIQUE_IDENTIFIER, .bytes bs, some .BitString⟩) =
      NameAttributeModel.validate
        (.fields (.str NameOID.X500_UNIQUE_IDENTIFIER.dotted_string) (b64encode bs)) := by
  have hparse : NameAttributeModel.parse_cryptography
      (.native ⟨NameOID.X500_UNIQUE_IDENTIFIER, .bytes bs, some .BitString⟩) =
      .fields (.str NameOID.X500_UNIQUE_IDENTIFIER.dotted_string) (b64encode bs) := by
    unfold NameAttributeModel.parse_cryptography
    dsimp only
    rw [if_pos rfl]
  unfold NameAttributeModel.validate
  rw [hparse]
  rfl

/-- Conversion to native form for a model whose OID is not the unique
identifier: a plain string attribute with default tag inference. -/
theorem cryptography_ok_not_uid {mo mv : String}
    (hval : x509.validDottedString mo = true)
    (hne : mo ≠ NameOID.X500_UNIQUE_IDENTIFIER.dotted_string) :
    NameAttributeModel.cryptography ⟨mo, mv⟩ = .ok ⟨⟨mo⟩, .str mv, none⟩ := by
  unfold NameAttributeModel.cryptography
  dsimp only
  rw [if_pos hval,
    if_neg (fun hh => hne (congrArg x509.ObjectIdentifier.dotted_string hh))]

/-- Conversion to native form for a unique-identifier model whose value
decodes: the decoded bytes with an explicit bit-string tag. -/
theorem cryptography_ok_uid {mv : String} {bs : List Nat}
    (hdec : b64decode mv = .ok bs) :
    NameAttributeModel.cryptography ⟨NameOID.X500_UNIQUE_IDENTIFIER.dotted_string, mv⟩ =
      .ok ⟨NameOID.X500_UNIQUE_IDENTIFIER, .bytes bs, some .BitString⟩ := by
  unfold NameAttributeModel.cryptography
  dsimp only
  rw [if_pos (by decide), if_pos rfl, hdec]

/-- C5 (amended): for every successfully constructed attribute model whose
OID is not the X.500 unique identifier, converting to the native attribute
and constructing a new model from it yields a model equal to the original;
for the unique-identifier OID the native attribute carries the base64-decoded
bytes with an explicit bit-string tag, and the round trip returns the
original whenever re-encoding those bytes yields the stored value back
(canonical base64). -/
theorem attribute_cryptography_roundtrip (d : NameAttributeInput)
    (m : NameAttributeModel) (h : NameAttributeModel.validate d = .ok m) :
    (m.oid ≠ NameOID.X500_UNIQUE_IDENTIFIER.dotted_string →
      ∃ attr, NameAttributeModel.cryptography m = .ok attr ∧
        NameAttributeModel.validate (.native attr) = .ok m)
    ∧ (∀ bs, m.oid = NameOID.X500_UNIQUE_IDENTIFIER.dotted_string →
        b64decode m.value = .ok bs → b64encode bs = m.value →
        NameAttributeModel.cryptography m =
          .ok ⟨NameOID.X500_UNIQUE_IDENTIFIER, .bytes bs, some .BitString⟩ ∧
        NameAttributeModel.validate
            (.native ⟨NameOID.X500_UNIQUE_IDENTIFIER, .bytes bs, some .BitString⟩) =
          .ok m) := by
  obtain ⟨hval, hafter⟩ := validate_ok_inv h
  obtain ⟨mo, mv⟩ := m
  dsimp only at hval hafter ⊢
  constructor
  · intro hne
    refine ⟨⟨⟨mo⟩, .str mv, none⟩, cryptography_ok_not_uid hval hne, ?_⟩
    rw [validate_native_str ⟨mo⟩ mv
      (fun hh => hne (congrArg x509.ObjectIdentifier.dotted_string hh))]
    dsimp only
    rw [validate_fields_eq, if_pos hval]
    exact hafter
  · intro bs huid hdec henc
    subst huid
    refine ⟨cryptography_ok_uid hdec, ?_⟩
    rw [validate_native_uid bs, henc]
    rw [validate_fields_eq, if_pos (by decide)]
    exact hafter

/-- Witness for C5 applying the round trip to a plain organization-name
attribute and to a canonical base64 unique-identifier attribute. -/
theorem attribute_cryptography_roundtrip_witness :
    (∃ attr, NameAttributeModel.cryptography ⟨"2.5.4.10", "Org"⟩ = .ok attr ∧
      NameAttributeModel.validate (.native attr) = .ok ⟨"2.5.4.10", "Org"⟩)
    ∧ NameAttributeModel.validate
        (.native ⟨NameOID.X500_UNIQUE_IDENTIFIER,
          .bytes [101, 120, 97, 109, 112, 108, 101, 46, 99, 111, 109],
          some .BitString⟩) =
      .ok ⟨"2.5.4.45", "ZXhhbXBsZS5jb20="⟩ := by
  constructor
  · exact (attribute_cryptography_roundtrip
      (.fields (.str "2.5.4.10") "Org") ⟨"2.5.4.10", "Org"⟩ rfl).1 (by decide)
  · exact ((attribute_cryptography_roundtrip
      (.fields (.str "2.5.4.45") "ZXhhbXBsZS5jb20=") ⟨"2.5.4.45", "ZXhhbXBsZS5jb20="⟩ rfl).2
      [101, 120, 97, 109, 112, 108, 101, 46, 99, 111, 109] rfl rfl rfl).2

/-- Counterexample for C5 as stated: the value "ab==" is accepted for the
unique-identifier OID, but converting to native form and back yields the
canonical re-encoding "aQ==", a different model. -/
theorem attribute_roundtrip_counterexample :
    NameAttributeModel.validate (.fields (.str "2.5.4.45") "ab==") =
      .ok ⟨"2.5.4.45", "ab=="⟩
    ∧ NameAttributeModel.cryptography ⟨"2.5.4.45", "ab=="⟩ =
        .ok ⟨⟨"2.5.4.45"⟩, .bytes [105], some .BitString⟩
    ∧ NameAttributeModel.validate (.native ⟨⟨"2.5.4.45"⟩, .bytes [105], some .BitString⟩) =
        .ok ⟨"2.5.4.45", "aQ=="⟩
    ∧ (⟨"2.5.4.45", "aQ=="⟩ : NameAttributeModel) ≠ ⟨"2.5.4.45", "ab=="⟩ :=
  ⟨rfl, rfl, rfl, by decide⟩

/-- Re-validating every model of a successfully validated attribute list from
its stored (oid, value) fields succeeds with the same list. -/
theorem validateAttributeList_refold :
    ∀ (items : List NameAttributeInput) (root : List NameAttributeModel),
    validateAttributeList items = .ok root →
    validateAttributeList
        (root.map (fun a => NameAttributeInput.fields (.str a.oid) a.value)) =
      .ok root := by
  intro items
  induction items with
  | nil =>
    intro root h
    simp only [validateAttributeList] at h
    injection h with h2
    subst h2
    rfl
  | cons a rest ih =>
    intro root h
    unfold validateAttributeList at h
    split at h
    · cases h
    · rename_i m hm
      split at h
      · cases h
      · rename_i ms hms
        injection h with h2
        subst h2
        rw [List.map_cons]
        unfold validateAttributeList
        rw [validate_refold hm, ih ms hms]

/-- Inversion of a successful NameModel construction: the stored attribute
list re-validates to itself and passes the duplicate check. -/
theorem name_model_validate_ok_inv {d : NameInput} {m : NameModel}
    (h : NameModel.validate d = .ok m) :
    validateAttributeList
        (m.root.map (fun a => NameAttributeInput.fields (.str a.oid) a.value)) =
      .ok m.root
    ∧ NameModel.validate_duplicates ⟨m.root⟩ = .ok ⟨m.root⟩ := by
  unfold NameModel.validate at h
  split at h
  · cases h
  · rename_i items hitems
    split at h
    · cases h
    · rename_i root hroot
      have hm : m = ⟨root⟩ := by
        unfold NameModel.validate_duplicates at h
        split at h
        · cases h
        · injection h with h2
          exact h2.symm
      subst hm
      exact ⟨validateAttributeList_refold items root hroot, h⟩

/-- C6: serializing any successfully constructed NameModel to its canonical
structured form (the ordered list of (oid, value) pairs) and parsing that
form back through the full construction pipeline yields a model equal to the
original. -/
theorem name_model_serialize_roundtrip (d : NameInput) (m : NameModel)
    (h : NameModel.validate d = .ok m) :
    NameModel.parseSerialized (NameModel.serialize m) = .ok m := by
  obtain ⟨hlist, hdup⟩ := name_model_validate_ok_inv h
  unfold NameModel.parseSerialized NameModel.serialize
  rw [nameModel_validate_list, List.map_map]
  have hcomp : ((fun p : String × String => NameAttributeInput.fields (.str p.1) p.2) ∘
      NameAttributeModel.serialize) =
      fun a => NameAttributeInput.fields (.str a.oid) a.value := by
    funext a
    rfl
  rw [hcomp, hlist]
  exact hdup

/-- Witness for C6 at a one-attribute common-name model. -/
theorem name_model_serialize_roundtrip_witness :
    NameModel.parseSerialized (NameModel.serialize ⟨[⟨"2.5.4.3", "example.com"⟩]⟩) =
      .ok ⟨[⟨"2.5.4.3", "example.com"⟩]⟩ :=
  name_model_serialize_roundtrip (.list [.fields (.str "2.5.4.3") "example.com"])
    ⟨[⟨"2.5.4.3", "example.com"⟩]⟩ rfl
